import Mathlib

/-!
Verification of the color-science core of rawtoaces.

This file gives a shallow embedding, in Lean 4, of the spectral data model
and the solver routines of the rawtoaces core
(`src/rawtoaces_core/spectral_data.cpp`, `src/rawtoaces_core/rawtoaces_core.cpp`),
and proves or refutes the behavioural claims made about them.

Modelling conventions:
* C++ `double` arithmetic is idealised as exact arithmetic, over `ℚ` wherever the
  source computes with rational operations only, and over `ℝ` where it uses
  transcendental functions (`exp`, `pi`).
* `std::map` / `std::vector` collections are modelled as association lists / lists.
* A C++ function that can throw (`SpectralData::get`) or terminate the process
  (`exit(1)`) is modelled with `Option` / an explicit result constructor: `none`
  (or `FIResult.processExit`) means "no value is returned to the caller".
* Functions from headers that are not part of the repository snapshot
  (`mathOps.h`, `define.h`, `rawtoaces_core_priv.h`) are reconstructed from the
  specification and marked `Modelled from the spec:` in their doc comments.
-/

namespace RawToAces

/-- The sampling information of a spectral curve: first and last sampled
wavelength and the sampling step, in nanometers (`Spectrum::Shape`,
`spectral_data.h`).  The C++ fields are `float`; they are idealised as `ℚ`. -/
structure Shape where
  first : ℚ
  last : ℚ
  step : ℚ
deriving DecidableEq, Repr

/-- The canonical reference shape `{ 380, 780, 5 }` (81 samples),
`Spectrum::ReferenceShape` in `spectral_data.h`. -/
def ReferenceShape : Shape := ⟨380, 780, 5⟩

/-- The empty shape `{ 0, 0, 0 }`, `Spectrum::EmptyShape` in `spectral_data.h`. -/
def EmptyShape : Shape := ⟨0, 0, 0⟩

/-- A regularly sampled spectral curve: a shape plus the sample storage
(`struct Spectrum` of `spectral_data.h`).  The value type is a parameter so
that the same model serves the exact-rational routines (`α = ℚ`) and the
blackbody synthesis which needs `Real.exp` (`α = ℝ`). -/
structure Spectrum (α : Type) where
  shape : Shape
  values : List α
deriving DecidableEq, Repr

/-- The `Spectrum( double value, const Shape & shape )` constructor
(`spectral_data.cpp:21`): when `shape.step > 0` it allocates
`(last - first + step) / step` samples (the `static_cast<size_t>` truncation is
modelled by `Nat.floor`), all equal to `value`; otherwise no samples. -/
def mkSpectrum {α : Type} (value : α) (sh : Shape) : Spectrum α :=
  ⟨sh, if 0 < sh.step then
         List.replicate ⌊(sh.last - sh.first + sh.step) / sh.step⌋₊ value
       else []⟩

/-- The element-wise arithmetic template `op` of `spectral_data.cpp:31`: the
result takes the left operand's shape, and the sample lists are combined
pointwise.  The source asserts equal shapes and equal sample counts; under that
precondition the loop `*l++ = func( *l, *r++ )` (right operand sequenced first,
so `*l` is read before being overwritten) is exactly `List.zipWith`. -/
def spectrum_op {α : Type} (f : α → α → α) (lhs rhs : Spectrum α) : Spectrum α :=
  ⟨lhs.shape, List.zipWith f lhs.values rhs.values⟩

/-- Element-wise product, `operator*` of `spectral_data.cpp:54`. -/
def spectrum_mul {α : Type} [Mul α] (lhs rhs : Spectrum α) : Spectrum α :=
  spectrum_op (· * ·) lhs rhs

/-- The method `Spectrum::integrate` (`spectral_data.cpp:154`): the plain sum of
the samples. -/
def Spectrum.integrate {α : Type} [AddCommMonoid α] (s : Spectrum α) : α :=
  s.values.sum

/-- The method `Spectrum::max` (`spectral_data.cpp:162`): the largest sample, or
`0` for an empty sample list. -/
def Spectrum.maxValue {α : Type} [LinearOrder α] [Zero α] (s : Spectrum α) : α :=
  match s.values with
  | [] => 0
  | x :: xs => xs.foldl Max.max x

/-- The body of the `while` loop of `Spectrum::reshape`
(`spectral_data.cpp:102-148`), resampling `vals` (sampled from wavelength
`first` with step `step`) onto the reference grid 380,385,…,780.
State: `src` is the current source index, `wl_src = first + step * src` its
wavelength, and `temp` the output samples produced so far (the C++ loop
maintains `wl_dst = 380 + 5 * temp.size()`, and runs while `wl_dst ≤ 780`,
which for a natural `temp.length` is exactly `temp.length ≤ 80`).
The source indexing `values[src]` is total only when `vals` is non-empty
(otherwise the C++ is undefined); the model uses `getD` there.
The recursion is driven by an explicit fuel argument: each C++ iteration either
appends an output sample (at most 81 of them) or advances `src` (at most
`values.size − 1` times), so any fuel exceeding
`(81 − temp.length) + (vals.length − src)` makes the recursion identical to the
unbounded loop (see `reshapeLoop_length`); `reshape` below supplies such fuel. -/
def reshapeLoop (vals : List ℚ) (first step : ℚ) :
    ℕ → ℕ → ℚ → List ℚ → List ℚ
  | 0, _, _, temp => temp
  | fuel + 1, src, wl_src, temp =>
    if temp.length ≤ 80 then
      let wl_dst : ℚ := 380 + 5 * temp.length
      if wl_src < wl_dst then
        if src < vals.length - 1 then
          let next_wl_src := first + step * (src + 1)
          if next_wl_src ≤ wl_dst then
            -- The next source wavelength is still not big enough, advancing.
            reshapeLoop vals first step fuel (src + 1) next_wl_src temp
          else
            -- The target wavelength is between two source samples,
            -- linearly interpolating.
            let frac := (wl_dst - wl_src) / (next_wl_src - wl_src)
            reshapeLoop vals first step fuel src wl_src
              (temp ++ [vals.getD src 0 * (1 - frac) + vals.getD (src + 1) 0 * frac])
        else
          -- We have passed all available source samples, copying the last sample.
          reshapeLoop vals first step fuel src wl_src (temp ++ [vals.getD src 0])
      else
        -- Exact match (`wl_src == wl_dst`) and the not-yet-reached case
        -- (`wl_src > wl_dst`) both copy `values[src]` in the source.
        reshapeLoop vals first step fuel src wl_src (temp ++ [vals.getD src 0])
    else temp

/-- The method `Spectrum::reshape` (`spectral_data.cpp:84`): a no-op when the
shape already equals `ReferenceShape`; otherwise the loop above resamples the
values onto the reference grid and the shape becomes `ReferenceShape`.  The
fuel `82 + s.values.length` strictly exceeds the loop's iteration bound. -/
def Spectrum.reshape (s : Spectrum ℚ) : Spectrum ℚ :=
  if s.shape = ReferenceShape then s
  else ⟨ReferenceShape,
        reshapeLoop s.values s.shape.first s.shape.step (82 + s.values.length)
          0 s.shape.first []⟩

/-- The shape-count invariant of §8 of the specification: when `step > 0` the
sample count equals `(last − first + step) / step`, and when `step ≤ 0` there
are no samples. -/
def shape_count_inv (s : Spectrum ℚ) : Prop :=
  (0 < s.shape.step →
    (s.values.length : ℚ) = (s.shape.last - s.shape.first + s.shape.step) / s.shape.step) ∧
  (s.shape.step ≤ 0 → s.values.length = 0)

instance (s : Spectrum ℚ) : Decidable (shape_count_inv s) :=
  inferInstanceAs (Decidable
    ((0 < s.shape.step →
        (s.values.length : ℚ) = (s.shape.last - s.shape.first + s.shape.step) / s.shape.step) ∧
     (s.shape.step ≤ 0 → s.values.length = 0)))

/-- A keyed collection of named spectral channels with header strings
(`struct SpectralData`, `spectral_data.h`).  Only the header fields that the
verified routines read (`manufacturer`, `model`, `type`) are modelled; the
remaining header strings never influence the claimed behaviour.  The
`std::map` of sets is modelled as an association list, each set being the list
of its `(channel name, Spectrum)` pairs. -/
structure SpectralData (α : Type) where
  manufacturer : String
  model : String
  type : String
  data : List (String × List (String × Spectrum α))
deriving DecidableEq, Repr

/-- Lookup of a spectral set by name (the `data.count(name)` / `data.at(name)`
pattern used across `rawtoaces_core.cpp`). -/
def SpectralData.findSet {α : Type} (d : SpectralData α) (set_name : String) :
    Option (List (String × Spectrum α)) :=
  (d.data.find? (fun s => s.1 == set_name)).map (·.2)

/-- The method `SpectralData::get( set_name, channel_name )`
(`spectral_data.cpp:338`): `none` models the `std::invalid_argument` throw
(or, for the `const` overload, the failed assertion) when the set or the
channel is missing. -/
def SpectralData.get {α : Type} (d : SpectralData α) (set_name channel_name : String) :
    Option (Spectrum α) :=
  match d.findSet set_name with
  | none => none
  | some s => (s.find? (fun c => c.1 == channel_name)).map (·.2)

/-- In-place update of one channel of one set, as performed through the
non-const reference returned by `SpectralData::operator[]` (used by
`scale_illuminant`, `rawtoaces_core.cpp:203-206`). -/
def SpectralData.setChannel {α : Type} (d : SpectralData α) (set_name channel_name : String)
    (sp : Spectrum α) : SpectralData α :=
  ⟨d.manufacturer, d.model, d.type,
    d.data.map (fun s =>
      if s.1 == set_name then
        (s.1, s.2.map (fun c => if c.1 == channel_name then (c.1, sp) else c))
      else s)⟩

/-- The free function `scale_illuminant` (`rawtoaces_core.cpp:187`): pick the
camera channel with the largest peak (ties resolved R, then G, then B, as the
chained `if` does), and scale the illuminant's `"power"` curve in place by
`1 / integrate( camera_max_channel * power )`.  The C++ statement
`illuminant_spectrum *= scale` converts the `double` scale to a `Spectrum`
through the implicit `Spectrum( value )` constructor, which uses the default
`ReferenceShape`; the model reproduces that via `mkSpectrum scale
ReferenceShape`.  `none` models a thrown lookup. -/
def scale_illuminant {α : Type} [LinearOrderedField α]
    (camera illuminant : SpectralData α) : Option (SpectralData α) := do
  let sR ← camera.get "main" "R"
  let sG ← camera.get "main" "G"
  let sB ← camera.get "main" "B"
  let max_channel : String :=
    if sR.maxValue ≥ sG.maxValue ∧ sR.maxValue ≥ sB.maxValue then "R"
    else if sG.maxValue ≥ sR.maxValue ∧ sG.maxValue ≥ sB.maxValue then "G"
    else "B"
  let camera_spectrum ← camera.get "main" max_channel
  let illuminant_spectrum ← illuminant.get "main" "power"
  let scale := 1 / (spectrum_mul camera_spectrum illuminant_spectrum).integrate
  some (illuminant.setChannel "main" "power"
    (spectrum_mul illuminant_spectrum (mkSpectrum scale ReferenceShape)))

/-- The free function `_calculate_WB` (`rawtoaces_core.cpp:495`): scale the
illuminant in place, integrate each camera channel against the scaled power
spectrum, and return the green-normalised triple `(g/r, 1, g/b)` together with
the mutated illuminant. -/
def calculate_WB_core {α : Type} [LinearOrderedField α]
    (camera illuminant : SpectralData α) : Option (List α × SpectralData α) := do
  let illuminant2 ← scale_illuminant camera illuminant
  let sR ← camera.get "main" "R"
  let sG ← camera.get "main" "G"
  let sB ← camera.get "main" "B"
  let pw ← illuminant2.get "main" "power"
  let r := (spectrum_mul sR pw).integrate
  let g := (spectrum_mul sG pw).integrate
  let b := (spectrum_mul sB pw).integrate
  some ([g / r, 1, g / b], illuminant2)

/-- The method `SpectralSolver::calculate_WB` (`rawtoaces_core.cpp:412`): fail
(returning `false` and leaving the white-balance multipliers and the illuminant
untouched) unless the camera has a `"main"` set of 3 channels and the
illuminant a `"main"` set of 1 channel; otherwise store the result of
`_calculate_WB`.  The outer `none` models an escaped lookup exception. -/
def calculate_WB {α : Type} [LinearOrderedField α]
    (camera illuminant : SpectralData α) (wb0 : List α) :
    Option (Bool × List α × SpectralData α) :=
  if (camera.findSet "main").map List.length ≠ some 3 then
    some (false, wb0, illuminant)
  else if (illuminant.findSet "main").map List.length ≠ some 1 then
    some (false, wb0, illuminant)
  else
    match calculate_WB_core camera illuminant with
    | none => none
    | some (wb, illuminant2) => some (true, wb, illuminant2)

/-- The dominant camera channel as the specification describes the
white-balance computation (§4.5.1 step 1: "identify the camera channel with
largest `max()`"; ties resolved R, then G, then B as in `scale_illuminant`).
This is a claim-side formula, to be compared with the code's behaviour. -/
def dominant_channel (sR sG sB : Spectrum ℚ) : Spectrum ℚ :=
  if sR.maxValue ≥ sG.maxValue ∧ sR.maxValue ≥ sB.maxValue then sR
  else if sG.maxValue ≥ sR.maxValue ∧ sG.maxValue ≥ sB.maxValue then sG
  else sB

/-- The illuminant power curve after the in-place scaling of §4.5.1 step 2:
the power samples multiplied by `1 / integrate( dominant × power )` (the
multiplication happens against an 81-sample constant spectrum because of the
implicit `Spectrum( scale )` conversion).  Claim-side formula. -/
def scaled_power (sR sG sB pw : Spectrum ℚ) : Spectrum ℚ :=
  spectrum_mul pw
    (mkSpectrum (1 / (spectrum_mul (dominant_channel sR sG sB) pw).integrate)
      ReferenceShape)

/-- The white-balance triple claimed by the specification (§4.5.1 steps 3-4):
`(g/r, 1, g/b)` with `r`, `g`, `b` the integrals of each camera channel against
the scaled power curve.  Claim-side formula. -/
def spec_WB_triple (sR sG sB pw : Spectrum ℚ) : List ℚ :=
  [(spectrum_mul sG (scaled_power sR sG sB pw)).integrate /
    (spectrum_mul sR (scaled_power sR sG sB pw)).integrate,
   1,
   (spectrum_mul sG (scaled_power sR sG sB pw)).integrate /
    (spectrum_mul sB (scaled_power sR sG sB pw)).integrate]

/-- Modelled from the spec: `calculate_SSE` comes from the missing `mathOps.h`;
per §4.5 of the specification it is "the sum of squared residuals against the
input triple". -/
def calculate_SSE (a b : List ℚ) : ℚ :=
  (List.zipWith (fun x y => (x - y) ^ 2) a b).sum

/-- Modelled from the spec: `max_double_value` comes from the missing
`define.h`; it is the largest finite `double`, `2^1024 − 2^971`. -/
def max_double_value : ℚ := 2 ^ 1024 - 2 ^ 971

/-- The candidate loop of `SpectralSolver::find_illuminant( wb )`
(`rawtoaces_core.cpp:391-402`): fold over the candidate catalog, keeping the
candidate (scaled in place by `_calculate_WB`) with the smallest sum of squared
errors against the requested multipliers.  The state is
`(best sse, best illuminant, best wb)`; `none` models an escaped exception. -/
def find_illuminant_wb_loop (camera : SpectralData ℚ) (catalog : List (SpectralData ℚ))
    (wb : List ℚ) (st : ℚ × SpectralData ℚ × List ℚ) :
    Option (ℚ × SpectralData ℚ × List ℚ) :=
  match catalog with
  | [] => some st
  | cand :: rest =>
    match calculate_WB_core camera cand with
    | none => none
    | some (wb_tmp, cand_scaled) =>
      let sse_tmp := calculate_SSE wb_tmp wb
      find_illuminant_wb_loop camera rest wb
        (if sse_tmp < st.1 then (sse_tmp, cand_scaled, wb_tmp) else st)

/-- The method `SpectralSolver::find_illuminant( const vector<double> & wb )`
(`rawtoaces_core.cpp:347`): fail (returning `false` with the state untouched)
unless the camera has a `"main"` set of 3 channels; otherwise run the candidate
loop starting from `sse = max_double_value` and return `true` with the winning
illuminant and multipliers (or the initial ones when nothing was selected).
The catalog is passed as a parameter: in the source it is memoized in
`_all_illuminants` and populated from generated daylight/blackbody entries
(which need the `s_series` table of the missing `rawtoaces_core_priv.h`) plus
whatever illuminant files load from disk. -/
def find_illuminant_wb (camera : SpectralData ℚ) (catalog : List (SpectralData ℚ))
    (wb : List ℚ) (illuminant0 : SpectralData ℚ) (wb0 : List ℚ) :
    Option (Bool × SpectralData ℚ × List ℚ) :=
  if (camera.findSet "main").map List.length ≠ some 3 then
    some (false, illuminant0, wb0)
  else
    match find_illuminant_wb_loop camera catalog wb (max_double_value, illuminant0, wb0) with
    | none => none
    | some (_, best_illuminant, best_wb) => some (true, best_illuminant, best_wb)

/-- Modelled from the spec: `is_not_equal_insensitive` (`rawtoaces_core.cpp:213`)
delegates to `cmp_str` of the missing `mathOps.h`; per §4.5 of the specification
the comparison is case-insensitive string equality. -/
def is_not_equal_insensitive (a b : String) : Bool :=
  a.toList.map Char.toLower != b.toList.map Char.toLower

/-- The method `SpectralSolver::find_camera` (`rawtoaces_core.cpp:283`).  Each
candidate camera file is loaded into the solver's `camera` member
(`camera.load( camera_file )`, called without checking its result) *before* the
manufacturer/model comparison, so the member is overwritten on every iteration.
The candidate list holds the post-`load` contents of each file; `cam` is the
solver's camera state on entry.  Returns the C++ return value paired with the
final camera state. -/
def find_camera (camera_files : List (SpectralData ℚ)) (make mdl : String)
    (cam : SpectralData ℚ) : Bool × SpectralData ℚ :=
  match camera_files with
  | [] => (false, cam)
  | f :: rest =>
    if is_not_equal_insensitive f.manufacturer make then find_camera rest make mdl f
    else if is_not_equal_insensitive f.model mdl then find_camera rest make mdl f
    else (true, f)

/-- The digit-folding part of `atoi`: the value of the longest digit prefix. -/
def atoiDigits (cs : List Char) : ℤ :=
  (cs.takeWhile Char.isDigit).foldl (fun acc c => 10 * acc + (c.toNat - 48)) 0

/-- A model of C `atoi` as used in `SpectralSolver::find_illuminant`
(`rawtoaces_core.cpp:318,325`): skip leading whitespace, read an optional sign
and then the longest digit prefix; a string with no digit prefix parses to 0. -/
def atoi (s : String) : ℤ :=
  match s.toList.dropWhile Char.isWhitespace with
  | '-' :: rest => -atoiDigits rest
  | '+' :: rest => atoiDigits rest
  | cs => atoiDigits cs

/-- The free function `CCT_to_xy` (`rawtoaces_core.cpp:22`): CIE daylight
chromaticity from the correlated color temperature, with the piecewise cubic
split at `[4002.15, 7003.77]`. -/
def CCT_to_xy (cct : ℚ) : ℚ × ℚ :=
  let x :=
    if 4002.15 ≤ cct ∧ cct ≤ 7003.77 then
      0.244063 + 99.11 / cct + 2.9678 * 1000000 / cct ^ 2 -
        4.6070 * 1000000000 / cct ^ 3
    else
      0.237040 + 247.48 / cct + 1.9018 * 1000000 / cct ^ 2 -
        2.0064 * 1000000000 / cct ^ 3
  (x, -3 * x ^ 2 + 2.87 * x - 0.275)

/-- Modelled from the spec: piecewise-linear interpolation of the samples
`(X, Y)` at one query point, clamping to the end values outside of the sampled
range; this is the per-point behaviour of `interp1DLinear` from the missing
`mathOps.h` ("linearly interpolating the published S0/S1/S2 tables onto the
target step", §4.3). -/
def interpAt (X : List ℤ) (Y : List ℚ) (q : ℤ) : ℚ :=
  match X, Y with
  | x1 :: x2 :: xs, y1 :: y2 :: ys =>
    if q ≤ x1 then y1
    else if q ≤ x2 then
      y1 + (y2 - y1) * ((q - x1 : ℤ) : ℚ) / ((x2 - x1 : ℤ) : ℚ)
    else interpAt (x2 :: xs) (y2 :: ys) q
  | [_], y1 :: _ => y1
  | _, _ => 0

/-- Modelled from the spec: `interp1DLinear` from the missing `mathOps.h`,
interpolating `(X, Y)` at every point of `Xq`. -/
def interp1DLinear (X Xq : List ℤ) (Y : List ℚ) : List ℚ :=
  Xq.map (interpAt X Y)

/-- The S-series synthesis of `calculate_daylight_SPD`
(`rawtoaces_core.cpp:63-98`) for an already validated CCT: compute the
chromaticity and the `M1`/`M2` weights, interpolate the S0/S1/S2 tables onto
the 5 nm grid starting at the table's first wavelength, and keep the combined
samples whose wavelength lies in `[380, 780]`.  The `s_series` table of the
missing `rawtoaces_core_priv.h` is passed in as `tbl` (rows
`(wavelength, S0, S1, S2)`); the generated spectra always use the default
`ReferenceShape`, so the step is 5. -/
def daylight_values (tbl : List (ℤ × ℚ × ℚ × ℚ)) (cct : ℚ) : List ℚ :=
  let xy := CCT_to_xy cct
  let m0 := 0.0241 + 0.2562 * xy.1 - 0.7341 * xy.2
  let m1 := (-1.3515 - 1.7703 * xy.1 + 5.9114 * xy.2) / m0
  let m2 := (0.03000 - 31.4424 * xy.1 + 30.0717 * xy.2) / m0
  let wavelengths := tbl.map (·.1)
  let s00 := tbl.map (fun r => r.2.1)
  let s10 := tbl.map (fun r => r.2.2.1)
  let s20 := tbl.map (fun r => r.2.2.2)
  let wl0 := wavelengths.headD 0
  let wavelength_range := wavelengths.getD 53 0 - wl0
  let num_wavelengths := (wavelength_range / 5).toNat + 1
  let grid := (List.range num_wavelengths).map (fun i => wl0 + 5 * (i : ℤ))
  let s01 := interp1DLinear wavelengths grid s00
  let s11 := interp1DLinear wavelengths grid s10
  let s21 := interp1DLinear wavelengths grid s20
  (List.range num_wavelengths).filterMap (fun (i : ℕ) =>
    let wavelength := wl0 + 5 * (i : ℤ)
    if 380 ≤ wavelength ∧ wavelength ≤ 780 then
      some (s01.getD i 0 + m1 * s11.getD i 0 + m2 * s21.getD i 0)
    else none)

/-- The free function `calculate_daylight_SPD` (`rawtoaces_core.cpp:45`): a CCT
input in `[40, 250]` is the ×100 shorthand and is rescaled by
`100 · 1.4387752 / 1.438`; an input in `[4000, 25000]` is used as given; any
other input prints a diagnostic and calls `exit(1)`, modelled as `none` —
no value is ever returned to the caller. -/
def calculate_daylight_SPD (tbl : List (ℤ × ℚ × ℚ × ℚ)) (cct_input : ℤ) :
    Option (List ℚ) :=
  if 40 ≤ cct_input ∧ cct_input ≤ 250 then
    some (daylight_values tbl ((cct_input : ℚ) * 100 * 1.4387752 / 1.438))
  else if 4000 ≤ cct_input ∧ cct_input ≤ 25000 then
    some (daylight_values tbl (cct_input : ℚ))
  else none

/-- Modelled from the spec: the physical constant `plancks_constant` from the
missing `define.h`, the SI Planck constant (§4.3: "physical constants `h`
(Planck), `c` (light speed), `k` (Boltzmann), all SI"). -/
noncomputable def plancks_constant : ℝ := 6.62607015e-34

/-- Modelled from the spec: the physical constant `light_speed` from the
missing `define.h`, the SI speed of light. -/
noncomputable def light_speed : ℝ := 299792458

/-- Modelled from the spec: the physical constant `boltzmann_constant` from
the missing `define.h`, the SI Boltzmann constant. -/
noncomputable def boltzmann_constant : ℝ := 1.380649e-23

/-- One sample of the Planck blackbody spectrum as computed inside the loop of
`calculate_blackbody_SPD` (`rawtoaces_core.cpp:112-120`): with
`lambda = wavelength / 1e9`, `c1 = 2 h c²` and `c2 = h c / (k·lambda·T)`, the
emitted value is `c1 · π / (lambda⁵ (exp(c2) − 1))`. -/
noncomputable def blackbody_radiance (cct : ℤ) (wavelength : ℕ) : ℝ :=
  let lambda : ℝ := (wavelength : ℝ) / 1e9
  let c1 := 2 * plancks_constant * light_speed ^ 2
  let c2 := plancks_constant * light_speed / (boltzmann_constant * lambda * (cct : ℝ))
  c1 * Real.pi / (lambda ^ 5 * (Real.exp c2 - 1))

/-- The free function `calculate_blackbody_SPD` (`rawtoaces_core.cpp:101`): a
CCT outside `[1500, 4000)` prints a diagnostic and calls `exit(1)` (modelled as
`none`); otherwise the loop emits one Planck sample per wavelength
380, 385, …, 780 (81 samples). -/
noncomputable def calculate_blackbody_SPD (cct : ℤ) : Option (List ℝ) :=
  if cct < 1500 ∨ 4000 ≤ cct then none
  else some ((List.range 81).map (fun i => blackbody_radiance cct (380 + 5 * i)))

/-- The observable outcome of `SpectralSolver::find_illuminant( type )`
(`rawtoaces_core.cpp:304`): either the process terminates inside a synthesis
routine (`exit(1)` — nothing is returned to the caller), or the call returns
`true` with the solver's illuminant set, or it returns `false`. -/
inductive FIResult where
  | processExit
  | found (illuminant : SpectralData ℝ)
  | notFound

/-- The free function `generate_illuminant` (`rawtoaces_core.cpp:133`) after a
successful synthesis: the illuminant's data is cleared and replaced by a single
`"main"` set holding the `"power"` channel (allocated as `Spectrum( 0 )`, hence
on `ReferenceShape`) with the synthesised values, and its `type` header is set. -/
def generated_illuminant (ty : String) (vals : List ℝ) : SpectralData ℝ :=
  ⟨"", "", ty, [("main", [("power", ⟨ReferenceShape, vals⟩)])]⟩

/-- The method `SpectralSolver::find_illuminant( const std::string & type )`
(`rawtoaces_core.cpp:304`): a token starting with `d`/`D` and not ending in
`k`/`K` is daylight (CCT parsed from the rest, type string
`"d" + std::to_string( cct )`); a token not starting with `d`/`D` and ending
in `k`/`K` is blackbody (type string `std::to_string( cct ) + "k"`); any other
token is looked up (case-insensitively, by `type` header) among the illuminant
files, modelled by the `db_illuminants` list of loadable files. -/
noncomputable def find_illuminant_typed (tbl : List (ℤ × ℚ × ℚ × ℚ))
    (db_illuminants : List (SpectralData ℝ)) (token : String) : FIResult :=
  let starts_with_d := (token.toList.headD '?').toLower = 'd'
  let ends_with_k := (token.toList.getLastD '?').toLower = 'k'
  if starts_with_d ∧ ¬ends_with_k then
    let cct := atoi (token.drop 1)
    let illuminant_type := "d" ++ toString cct
    match calculate_daylight_SPD tbl cct with
    | none => .processExit
    | some vals => .found (generated_illuminant illuminant_type (vals.map (fun q => (q : ℝ))))
  else if ¬starts_with_d ∧ ends_with_k then
    let cct := atoi (token.dropRight 1)
    let illuminant_type := toString cct ++ "k"
    match calculate_blackbody_SPD cct with
    | none => .processExit
    | some vals => .found (generated_illuminant illuminant_type vals)
  else
    match db_illuminants.find? (fun il => !is_not_equal_insensitive il.type token) with
    | some il => .found il
    | none => .notFound

/-- The `type` header of the illuminant produced by `find_illuminant`, when one
is produced. -/
def FIResult.illuminantType : FIResult → Option String
  | .found il => some il.type
  | _ => none

/-- The sample values of the `"power"` channel of the illuminant produced by
`find_illuminant`, when one is produced. -/
noncomputable def FIResult.powerValues : FIResult → Option (List ℝ)
  | .found il => (il.get "main" "power").map Spectrum.values
  | _ => none

/-- The daylight CCT grid of the catalog population in
`SpectralSolver::find_illuminant( wb )` (`rawtoaces_core.cpp:360`):
4000, 4500, …, 25000. -/
def catalog_daylight_CCTs : List ℤ :=
  (List.range 43).map (fun i => 4000 + 500 * (i : ℤ))

/-- The blackbody CCT grid of the catalog population in
`SpectralSolver::find_illuminant( wb )` (`rawtoaces_core.cpp:368`):
1500, 2000, …, 3500. -/
def catalog_blackbody_CCTs : List ℤ :=
  (List.range 5).map (fun i => 1500 + 500 * (i : ℤ))

/-- The generated part of the `_all_illuminants` catalog
(`rawtoaces_core.cpp:358-373`): daylight entries typed
`"d" + std::to_string( cct / 100 )` followed by blackbody entries typed
`std::to_string( cct ) + "k"` (the C++ `/` on positive `int`s is `Int.div`
on these non-negative values). -/
noncomputable def populate_generated_illuminants (tbl : List (ℤ × ℚ × ℚ × ℚ)) :
    List (SpectralData ℝ) :=
  catalog_daylight_CCTs.map (fun cct =>
    generated_illuminant ("d" ++ toString (cct / 100))
      (((calculate_daylight_SPD tbl cct).getD []).map (fun q => (q : ℝ)))) ++
  catalog_blackbody_CCTs.map (fun cct =>
    generated_illuminant (toString cct ++ "k")
      ((calculate_blackbody_SPD cct).getD []))

/-- The parameter unpacking of `curveFit` (`rawtoaces_core.cpp:675-683`): the
six solved parameters become a 3×3 matrix whose third column completes each row
to sum 1. -/
def curveFit_unpack (b : Fin 6 → ℚ) : List (List ℚ) :=
  [[b 0, b 1, 1 - b 0 - b 1],
   [b 2, b 3, 1 - b 2 - b 3],
   [b 4, b 5, 1 - b 4 - b 5]]

/-- The tail of `curveFit` (`rawtoaces_core.cpp:673-703`): if the Ceres summary
reports at least one successful step, the solved parameters are unpacked into
the output IDT matrix and `true` is returned; otherwise the output matrix is
left as it was and `false` is returned.  The nonlinear solver itself is the
external Ceres library; its outputs (the solved parameter vector and the
successful-step count) are parameters of the model. -/
def curveFit_commit (b : Fin 6 → ℚ) (num_successful_steps : ℕ)
    (idt0 : List (List ℚ)) : Bool × List (List ℚ) :=
  if num_successful_steps ≠ 0 then (true, curveFit_unpack b) else (false, idt0)

/-- One DNG calibration triple (`struct Calibration` of the core header): the
EXIF light-source tag (a `u16`), the 3×3 XYZ→RGB matrix (row-major, flattened)
and the camera-calibration matrix (stored but unused in computation). -/
structure Calibration where
  illuminant : ℕ
  XYZ_to_RGB_matrix : List ℚ
  camera_calibration_matrix : List ℚ
deriving DecidableEq, Repr

/-- The DNG metadata snapshot handed to the metadata solver: baseline exposure,
the camera-neutral RGB triple (possibly empty), and exactly two calibrations. -/
structure Metadata where
  baseline_exposure : ℚ
  neutral_RGB : List ℚ
  calibration0 : Calibration
  calibration1 : Calibration
deriving DecidableEq, Repr

/-- The free function `CCT_to_mired` (`rawtoaces_core.cpp:782`). -/
def CCT_to_mired (cct : ℚ) : ℚ := 1000000 / cct

/-- The free function `light_source_to_color_temp` (`rawtoaces_core.cpp:828`):
tags at or above 32768 encode `CCT = tag − 32768`; smaller tags go through the
fixed EXIF map, defaulting to 5500 K. -/
def light_source_to_color_temp (tag : ℕ) : ℚ :=
  if 32768 ≤ tag then (tag : ℚ) - 32768
  else
    let tableEXIF : List (ℕ × ℚ) :=
      [(0, 5500), (1, 5500), (2, 3500), (3, 3400), (10, 5550), (17, 2856),
       (18, 4874), (19, 6774), (20, 5500), (21, 6500), (22, 7500)]
    ((tableEXIF.find? (fun p => p.1 == tag)).map (·.2)).getD 5500

/-- Modelled from the spec: `mulVector( matrix, vector )` from the missing
`mathOps.h`, the product of a row-major flattened 3×3 matrix with a column
3-vector. -/
def mulVec3 (m v : List ℚ) : List ℚ :=
  [m.getD 0 0 * v.getD 0 0 + m.getD 1 0 * v.getD 1 0 + m.getD 2 0 * v.getD 2 0,
   m.getD 3 0 * v.getD 0 0 + m.getD 4 0 * v.getD 1 0 + m.getD 5 0 * v.getD 2 0,
   m.getD 6 0 * v.getD 0 0 + m.getD 7 0 * v.getD 1 0 + m.getD 8 0 * v.getD 2 0]

/-- Modelled from the spec: `invertV` from the missing `mathOps.h`, the inverse
of a row-major flattened 3×3 matrix by the adjugate formula. -/
def invertV (m : List ℚ) : List ℚ :=
  let a := m.getD 0 0
  let b := m.getD 1 0
  let c := m.getD 2 0
  let d := m.getD 3 0
  let e := m.getD 4 0
  let f := m.getD 5 0
  let g := m.getD 6 0
  let h := m.getD 7 0
  let i := m.getD 8 0
  let det := a * (e * i - f * h) - b * (d * i - f * g) + c * (d * h - e * g)
  [(e * i - f * h) / det, (c * h - b * i) / det, (b * f - c * e) / det,
   (f * g - d * i) / det, (a * i - c * g) / det, (c * d - a * f) / det,
   (d * h - e * g) / det, (b * g - a * h) / det, (a * e - b * d) / det]

/-- The free function `XYZ_to_camera_weighted_matrix` (`rawtoaces_core.cpp:912`):
linear interpolation between the two calibration matrices with the clamped
weight `(mired_start − mired_target) / (mired_start − mired_end)`. -/
def XYZ_to_camera_weighted_matrix (mired_target mired_start mired_end : ℚ)
    (matrix_start matrix_end : List ℚ) : List ℚ :=
  let weight := max 0 (min 1 ((mired_start - mired_target) / (mired_start - mired_end)))
  List.zipWith (fun ms me => ms + weight * (me - ms)) matrix_start matrix_end

/-- The iterative mired search of `find_XYZ_to_camera_matrix`
(`rawtoaces_core.cpp:987-1021`), with the state variables of the source
(`current_mired`, `last_mired`, `last_error`, `smallest_error`,
`estimated_mired`) threaded explicitly.  `cctOf` stands for the composition
`XYZ_to_color_temperature ∘ mulVector (invertV weighted) neutral`'s inner
Robertson-table conversion (`XYZ_to_color_temperature`), which depends on the
`robertson_uvt_table` of the missing `rawtoaces_core_priv.h` and is therefore a
parameter.  The walk advances by `mired_step ≥ max(5, range/50)` per iteration,
so at most 51 iterations take place; the fuel of 120 is never exhausted. -/
def mired_search_loop (cctOf : List ℚ → ℚ) (neutral : List ℚ) (mir1 mir2 : ℚ)
    (matrix_start matrix_end : List ℚ) (low_mired high_mired mired_step : ℚ) :
    ℕ → ℚ → ℚ → ℚ → ℚ → ℚ → ℚ
  | 0, _, _, _, _, estimated_mired => estimated_mired
  | fuel + 1, current_mired, last_mired, last_error, smallest_error, estimated_mired =>
    if current_mired < high_mired then
      let current_error :=
        current_mired -
          CCT_to_mired (cctOf (mulVec3
            (invertV (XYZ_to_camera_weighted_matrix current_mired mir1 mir2
              matrix_start matrix_end)) neutral))
      if |current_error - 0| ≤ 1 / 10 ^ 9 then current_mired
      else if 1 / 10 ^ 9 < |current_mired - low_mired - 0| ∧
          current_error * last_error ≤ 0 then
        current_mired + current_error / (current_error - last_error) *
          (current_mired - last_mired)
      else
        let improved := |current_mired - low_mired| ≤ 1 / 10 ^ 9 ∨
          |current_error| < |smallest_error|
        let estimated2 := if improved then current_mired else estimated_mired
        let smallest2 := if improved then current_error else smallest_error
        mired_search_loop cctOf neutral mir1 mir2 matrix_start matrix_end
          low_mired high_mired mired_step fuel
          (current_mired + mired_step) current_mired current_error smallest2 estimated2
    else estimated_mired

/-- The result of `find_XYZ_to_camera_matrix`: the returned matrix, plus
whether the degenerate-calibration warning was printed to `stderr` (which
happens exactly in the two early-return fallback branches). -/
structure XCResult where
  warned : Bool
  matrix : List ℚ
deriving DecidableEq, Repr

/-- The free function `find_XYZ_to_camera_matrix` (`rawtoaces_core.cpp:946`):
if the *first* calibration's illuminant tag is 0, or the neutral RGB vector is
empty, print a warning and return the first calibration's XYZ→RGB matrix;
otherwise run the mired search between the two calibration temperatures
(clamped to `[mired(50000), mired(2000)]`) and return the interpolated matrix
at the estimated mired.  `cctOf` is the Robertson `XYZ_to_color_temperature`
conversion, a parameter for the reason given at `mired_search_loop`. -/
def find_XYZ_to_camera_matrix (cctOf : List ℚ → ℚ) (metadata : Metadata)
    (neutral_RGB : List ℚ) : XCResult :=
  if metadata.calibration0.illuminant = 0 then
    ⟨true, metadata.calibration0.XYZ_to_RGB_matrix⟩
  else if neutral_RGB.length = 0 then
    ⟨true, metadata.calibration0.XYZ_to_RGB_matrix⟩
  else
    let cct1 := light_source_to_color_temp metadata.calibration0.illuminant
    let cct2 := light_source_to_color_temp metadata.calibration1.illuminant
    let mir1 := CCT_to_mired cct1
    let mir2 := CCT_to_mired cct2
    let max_mired := CCT_to_mired 2000
    let min_mired := CCT_to_mired 50000
    let matrix_start := metadata.calibration0.XYZ_to_RGB_matrix
    let matrix_end := metadata.calibration1.XYZ_to_RGB_matrix
    let low_mired := max min_mired (min (min mir1 mir2) max_mired)
    let high_mired := max min_mired (min (max mir1 mir2) max_mired)
    let mired_step := max 5 ((high_mired - low_mired) / 50)
    let estimated_mired :=
      mired_search_loop cctOf neutral_RGB mir1 mir2 matrix_start matrix_end
        low_mired high_mired mired_step 120 low_mired 0 0 0 0
    ⟨false, XYZ_to_camera_weighted_matrix estimated_mired mir1 mir2
      matrix_start matrix_end⟩

/-! ### Concrete example data, used by counterexamples and witnesses -/

/-- A one-sample shape (wavelength 380 only), used to build small concrete
spectra. -/
def shapeOne : Shape := ⟨380, 380, 5⟩

/-- The concrete `R` curve of the example camera below. -/
def cameraChannelREx : Spectrum ℚ := ⟨shapeOne, [2]⟩

/-- The concrete `G` curve of the example camera below. -/
def cameraChannelGEx : Spectrum ℚ := ⟨shapeOne, [3]⟩

/-- The concrete `B` curve of the example camera below. -/
def cameraChannelBEx : Spectrum ℚ := ⟨shapeOne, [4]⟩

/-- The concrete `power` curve of the example illuminant below. -/
def powerChannelEx : Spectrum ℚ := ⟨shapeOne, [5]⟩

/-- A small concrete camera: `"main"` holds positive one-sample `R`, `G`, `B`
curves. -/
def cameraEx : SpectralData ℚ :=
  ⟨"", "", "",
   [("main", [("R", cameraChannelREx), ("G", cameraChannelGEx),
              ("B", cameraChannelBEx)])]⟩

/-- A small concrete illuminant: `"main"` holds a positive one-sample `power`
curve. -/
def illuminantEx : SpectralData ℚ :=
  ⟨"", "", "", [("main", [("power", powerChannelEx)])]⟩

/-- A stand-in for the `s_series` table (54 rows, wavelengths 300, 310, …, 830,
all S-values 0), with the row layout of the real table; the daylight type
string and the range checks do not depend on the tabulated S-values. -/
def dummy_s_series : List (ℤ × ℚ × ℚ × ℚ) :=
  (List.range 54).map (fun i => (300 + 10 * (i : ℤ), 0, 0, 0))

/-- A concrete two-sample spectrum on the shape `(300, 400, 100)`, which
satisfies the shape-count invariant (`(400 − 300 + 100) / 100 = 2`). -/
def spectrumEx : Spectrum ℚ := ⟨⟨300, 400, 100⟩, [1, 2]⟩

/-- A concrete 81-sample spectrum already on the reference shape. -/
def referenceSpectrumEx : Spectrum ℚ := ⟨ReferenceShape, List.replicate 81 1⟩

/-- The initial camera state of a solver, before any `find_camera` call. -/
def cameraInitialEx : SpectralData ℚ := ⟨"Initial", "Initial", "", []⟩

/-- The post-`load` contents of a camera file that matches neither the
manufacturer `"Nikon"` nor the model `"Z9"`. -/
def cameraFileEx : SpectralData ℚ := ⟨"Canon", "EOS R6", "camera", []⟩

/-- A metadata snapshot whose first calibration tag is 0 while the second is
non-zero (EXIF 21 = D65) and whose neutral RGB has 3 entries. -/
def metadataEx : Metadata :=
  ⟨0, [1, 1, 1],
   ⟨0, [1, 0, 0, 0, 1, 0, 0, 0, 1], []⟩,
   ⟨21, [2, 0, 0, 0, 2, 0, 0, 0, 2], []⟩⟩

/-- A concrete stand-in for the Robertson XYZ→CCT conversion (the fallback
branches of `find_XYZ_to_camera_matrix` never evaluate it). -/
def cctOfEx : List ℚ → ℚ := fun _ => 5000

/-! ### Theorems -/

/-- Helper: each row produced by `curveFit_unpack` sums to 1. -/
theorem curveFit_unpack_row_sum (b : Fin 6 → ℚ) :
    ∀ row ∈ curveFit_unpack b, row.sum = 1 := by
  intro row hrow
  simp only [curveFit_unpack, List.mem_cons, List.not_mem_nil, or_false] at hrow
  rcases hrow with h | h | h <;> subst h <;> simp [List.sum_cons]

/-- C2: whenever the IDT solve succeeds (`curveFit` returns `true`, i.e. the
Ceres summary reports at least one successful step), the committed 3×3 IDT
matrix is the unpacking `[[b0, b1, 1−b0−b1], [b2, b3, 1−b2−b3],
[b4, b5, 1−b4−b5]]` of the solved parameters, and every row of it sums to 1
exactly in exact arithmetic. -/
theorem idt_matrix_row_sums_to_one (b : Fin 6 → ℚ) (num_successful_steps : ℕ)
    (idt0 : List (List ℚ))
    (hsucc : (curveFit_commit b num_successful_steps idt0).1 = true) :
    (curveFit_commit b num_successful_steps idt0).2 = curveFit_unpack b ∧
    ∀ row ∈ (curveFit_commit b num_successful_steps idt0).2, row.sum = 1 := by
  by_cases h : num_successful_steps ≠ 0
  · constructor
    · simp [curveFit_commit, if_pos h]
    · simp only [curveFit_commit, if_pos h]
      exact curveFit_unpack_row_sum b
  · simp [curveFit_commit, if_neg h] at hsucc

/-- Witness for C2 at a concrete successful solve. -/
theorem idt_matrix_row_sums_to_one_witness :
    (curveFit_commit (fun _ => 0) 1 []).2 = curveFit_unpack (fun _ => 0) ∧
    ∀ row ∈ (curveFit_commit (fun _ => 0) 1 []).2, row.sum = 1 :=
  idt_matrix_row_sums_to_one (fun _ => 0) 1 [] (by decide)

/-- Helper: with sufficient fuel the reshape loop fills the output up to
exactly 81 samples (the reference grid 380, 385, …, 780). -/
theorem reshapeLoop_length (vals : List ℚ) (first step : ℚ) (fuel src : ℕ)
    (wl_src : ℚ) (temp : List ℚ) (h : temp.length ≤ 81)
    (hfuel : (81 - temp.length) + (vals.length - src) < fuel) :
    (reshapeLoop vals first step fuel src wl_src temp).length = 81 := by
  induction fuel generalizing src wl_src temp with
  | zero => omega
  | succ n ih =>
    rw [reshapeLoop]
    by_cases h80 : temp.length ≤ 80
    · simp only [if_pos h80]
      by_cases hlt : wl_src < 380 + 5 * (temp.length : ℚ)
      · simp only [if_pos hlt]
        by_cases hsrc : src < vals.length - 1
        · simp only [if_pos hsrc]
          by_cases hle : first + step * ((src : ℚ) + 1) ≤ 380 + 5 * (temp.length : ℚ)
          · simp only [if_pos hle]
            exact ih (src + 1) _ temp h (by omega)
          · simp only [if_neg hle]
            exact ih src wl_src _
              (by simp only [List.length_append, List.length_cons, List.length_nil]; omega)
              (by simp only [List.length_append, List.length_cons, List.length_nil]; omega)
        · simp only [if_neg hsrc]
          exact ih src wl_src _
            (by simp only [List.length_append, List.length_cons, List.length_nil]; omega)
            (by simp only [List.length_append, List.length_cons, List.length_nil]; omega)
      · simp only [if_neg hlt]
        exact ih src wl_src _
          (by simp only [List.length_append, List.length_cons, List.length_nil]; omega)
          (by simp only [List.length_append, List.length_cons, List.length_nil]; omega)
    · simp only [if_neg h80]
      omega

/-- C6: the shape-count invariant (`|values| = (last − first + step) / step`
when `step > 0`, `|values| = 0` otherwise) holds after construction via
`Spectrum( value, shape )` for any shape whose count is integral, after
`reshape()`, and after element-wise arithmetic on equal-shape operands that
satisfy it. -/
theorem spectrum_shape_count_invariant :
    (∀ (v : ℚ) (sh : Shape),
      (0 < sh.step → ∃ n : ℕ, (sh.last - sh.first + sh.step) / sh.step = (n : ℚ)) →
      shape_count_inv (mkSpectrum v sh)) ∧
    (∀ s : Spectrum ℚ, shape_count_inv s → 0 < s.shape.step → s.values ≠ [] →
      shape_count_inv s.reshape) ∧
    (∀ (f : ℚ → ℚ → ℚ) (a b : Spectrum ℚ), shape_count_inv a → shape_count_inv b →
      a.shape = b.shape → shape_count_inv (spectrum_op f a b)) := by
  refine ⟨?_, ?_, ?_⟩
  · intro v sh hint
    unfold mkSpectrum shape_count_inv
    by_cases hstep : 0 < sh.step
    · obtain ⟨n, hn⟩ := hint hstep
      refine ⟨fun _ => ?_, fun hle => absurd hstep (not_lt.mpr hle)⟩
      simp only [if_pos hstep, List.length_replicate, hn, Nat.floor_natCast]
    · refine ⟨fun hgt => absurd hgt hstep, fun _ => ?_⟩
      simp [if_neg hstep]
  · intro s hinv hstep _hne
    unfold Spectrum.reshape
    by_cases href : s.shape = ReferenceShape
    · simpa [href] using hinv
    · simp only [if_neg href]
      constructor
      · intro _
        have hlen : (reshapeLoop s.values s.shape.first s.shape.step
            (82 + s.values.length) 0 s.shape.first []).length = 81 :=
          reshapeLoop_length _ _ _ _ _ _ _ (by simp)
            (by simp only [List.length_nil]; omega)
        simp only [hlen]
        norm_num [ReferenceShape]
      · intro hle
        exact absurd hle (by norm_num [ReferenceShape])
  · intro f a b hia hib hsh
    have hlen : a.values.length = b.values.length := by
      rcases hia with ⟨ha1, ha2⟩
      rcases hib with ⟨hb1, hb2⟩
      by_cases hstep : 0 < a.shape.step
      · have h1 := ha1 hstep
        have h2 := hb1 (hsh ▸ hstep)
        rw [hsh] at h1
        exact_mod_cast h1.trans h2.symm
      · rw [ha2 (not_lt.mp hstep), hb2 (not_lt.mp (hsh ▸ hstep))]
    rcases hia with ⟨ha1, ha2⟩
    constructor
    · intro hstep
      have : (spectrum_op f a b).values.length = a.values.length := by
        simp [spectrum_op, List.length_zipWith, hlen]
      rw [this]
      exact ha1 hstep
    · intro hle
      have : (spectrum_op f a b).values.length = a.values.length := by
        simp [spectrum_op, List.length_zipWith, hlen]
      rw [this]
      exact ha2 hle

/-- Witness for C6: the invariant after construction on the reference shape,
after reshaping `referenceSpectrumEx`, and after adding `spectrumEx` to
itself. -/
theorem spectrum_shape_count_invariant_witness :
    shape_count_inv (mkSpectrum (1 : ℚ) ReferenceShape) ∧
    shape_count_inv referenceSpectrumEx.reshape ∧
    shape_count_inv (spectrum_op (· + ·) spectrumEx spectrumEx) :=
  ⟨spectrum_shape_count_invariant.1 1 ReferenceShape
      (fun _ => ⟨81, by norm_num [ReferenceShape]⟩),
   spectrum_shape_count_invariant.2.1 referenceSpectrumEx
      ⟨fun _ => by norm_num [referenceSpectrumEx, ReferenceShape],
       fun h => by norm_num [referenceSpectrumEx, ReferenceShape] at h⟩
      (by norm_num [referenceSpectrumEx, ReferenceShape])
      (by simp [referenceSpectrumEx]),
   spectrum_shape_count_invariant.2.2 (· + ·) spectrumEx spectrumEx
      ⟨fun _ => by norm_num [spectrumEx], fun h => by norm_num [spectrumEx] at h⟩
      ⟨fun _ => by norm_num [spectrumEx], fun h => by norm_num [spectrumEx] at h⟩
      rfl⟩

/-- C9 counterexample: a failing `find_camera` call does commit a partial
output.  With one candidate camera file (Canon) and a search for Nikon Z9 the
call returns `false`, yet the solver's camera data is no longer its initial
contents — it holds the loaded Canon file. -/
theorem find_camera_failure_commits_partial_state :
    (find_camera [cameraFileEx] "Nikon" "Z9" cameraInitialEx).1 = false ∧
    (find_camera [cameraFileEx] "Nikon" "Z9" cameraInitialEx).2 ≠ cameraInitialEx := by
  decide

/-- Helper: dropping to the tail, `getLast?` with a default behaves like the
recursion of `find_camera`. -/
theorem getLast_getD_cons {α : Type} (f : α) (rest : List α) (cam0 : α) :
    ((f :: rest).getLast?).getD cam0 = (rest.getLast?).getD f := by
  cases rest with
  | nil => rfl
  | cons g tail =>
    rw [List.getLast?_cons_cons]
    obtain ⟨v, hv⟩ := Option.isSome_iff_exists.mp
      (List.getLast?_isSome.mpr (List.cons_ne_nil g tail))
    rw [hv]
    rfl

/-- C9 (amended): when `find_camera` fails it returns `false`, but the solver's
camera data has been overwritten by every candidate load along the way: it
equals the contents of the *last* camera file (every candidate is loaded and
rejected), and it equals the prior contents only when there are no candidate
files at all. -/
theorem find_camera_failure_keeps_last_load :
    (∀ (files : List (SpectralData ℚ)) (make mdl : String) (cam0 : SpectralData ℚ),
      (find_camera files make mdl cam0).1 = false →
      (find_camera files make mdl cam0).2 = (files.getLast?).getD cam0) ∧
    (∀ (make mdl : String) (cam0 : SpectralData ℚ),
      find_camera [] make mdl cam0 = (false, cam0)) := by
  constructor
  · intro files
    induction files with
    | nil => intro make mdl cam0 _; rfl
    | cons f rest ih =>
      intro make mdl cam0 hfail
      rw [getLast_getD_cons]
      by_cases h1 : is_not_equal_insensitive f.manufacturer make
      · rw [find_camera, if_pos h1] at hfail ⊢
        exact ih make mdl f hfail
      · by_cases h2 : is_not_equal_insensitive f.model mdl
        · rw [find_camera, if_neg h1, if_pos h2] at hfail ⊢
          exact ih make mdl f hfail
        · rw [find_camera, if_neg h1, if_neg h2] at hfail
          simp at hfail
  · intro make mdl cam0
    rfl

/-- Witness for C9 (amended) at the concrete failing search. -/
theorem find_camera_failure_keeps_last_load_witness :
    (find_camera [cameraFileEx] "Nikon" "Z9" cameraInitialEx).2 =
      (([cameraFileEx] : List (SpectralData ℚ)).getLast?).getD cameraInitialEx ∧
    find_camera [] "Nikon" "Z9" cameraInitialEx = (false, cameraInitialEx) :=
  ⟨find_camera_failure_keeps_last_load.1 [cameraFileEx] "Nikon" "Z9" cameraInitialEx
      (by decide),
   find_camera_failure_keeps_last_load.2 "Nikon" "Z9" cameraInitialEx⟩

/-- C8 counterexample: the degenerate-calibration fallback does not require
*both* illuminant tags to be zero.  `metadataEx` has tag1 = 0 but tag2 = 21 and
a 3-entry neutral RGB, so by the claim the iterative mired search should run
(no warning); the code still takes the fallback and warns, because it only
tests the first tag. -/
theorem find_XYZ_fallback_first_tag_only_cex :
    (find_XYZ_to_camera_matrix cctOfEx metadataEx metadataEx.neutral_RGB).warned = true ∧
    ¬((metadataEx.calibration0.illuminant = 0 ∧ metadataEx.calibration1.illuminant = 0) ∨
        metadataEx.neutral_RGB = []) := by
  exact ⟨rfl, by decide⟩

/-- C8 (amended): `find_XYZ_to_camera_matrix` takes the warning fallback branch
exactly when the *first* calibration's illuminant tag is zero or the neutral
RGB vector is empty, and in that case the returned matrix is the first
calibration's XYZ→RGB matrix; otherwise the mired search runs (no warning). -/
theorem find_XYZ_fallback_condition (cctOf : List ℚ → ℚ) (md : Metadata)
    (neutral : List ℚ) :
    ((find_XYZ_to_camera_matrix cctOf md neutral).warned = true ↔
      (md.calibration0.illuminant = 0 ∨ neutral = [])) ∧
    ((find_XYZ_to_camera_matrix cctOf md neutral).warned = true →
      (find_XYZ_to_camera_matrix cctOf md neutral).matrix =
        md.calibration0.XYZ_to_RGB_matrix) := by
  unfold find_XYZ_to_camera_matrix
  by_cases h0 : md.calibration0.illuminant = 0
  · simp [h0]
  · simp only [if_neg h0]
    by_cases hn : neutral.length = 0
    · simp [hn, List.length_eq_zero.mp hn]
    · have hne : neutral ≠ [] := fun h => hn (h ▸ rfl)
      simp [hn, h0, hne]

/-- Witness for C8 (amended): with an empty neutral RGB the fallback fires and
returns the first calibration matrix. -/
theorem find_XYZ_fallback_condition_witness :
    (find_XYZ_to_camera_matrix cctOfEx metadataEx []).warned = true ∧
    (find_XYZ_to_camera_matrix cctOfEx metadataEx []).matrix =
      metadataEx.calibration0.XYZ_to_RGB_matrix := by
  have h := find_XYZ_fallback_condition cctOfEx metadataEx []
  exact ⟨h.1.mpr (Or.inr rfl), h.2 (h.1.mpr (Or.inr rfl))⟩

/-- C3 counterexample: `find_illuminant("D3000")` does not return an error
status to its caller.  The daylight CCT 3000 lies outside both accepted bands,
and `calculate_daylight_SPD` prints a diagnostic and calls `exit(1)`: the
process terminates (`FIResult.processExit`), which is not the `false` return
(`FIResult.notFound`) that "the solver reports failure" would produce. -/
theorem find_illuminant_D3000_no_error_status_cex :
    find_illuminant_typed dummy_s_series [] "D3000" = FIResult.processExit ∧
    FIResult.processExit ≠ FIResult.notFound :=
  ⟨rfl, fun h => FIResult.noConfusion h⟩

/-- C3 (amended): for every daylight token whose parsed CCT lies outside both
accepted bands `[40, 250]` and `[4000, 25000]`, the synthesis rejects the CCT
by terminating the process (`exit(1)` after a diagnostic); `find_illuminant`
never returns to its caller — neither an illuminant nor an error status. -/
theorem daylight_out_of_range_exits (tbl : List (ℤ × ℚ × ℚ × ℚ))
    (dbs : List (SpectralData ℝ)) (token : String)
    (hd : (token.toList.headD '?').toLower = 'd')
    (hk : (token.toList.getLastD '?').toLower ≠ 'k')
    (hout : atoi (token.drop 1) < 40 ∨
      (250 < atoi (token.drop 1) ∧ atoi (token.drop 1) < 4000) ∨
      25000 < atoi (token.drop 1)) :
    find_illuminant_typed tbl dbs token = FIResult.processExit := by
  have hnone : calculate_daylight_SPD tbl (atoi (token.drop 1)) = none := by
    unfold calculate_daylight_SPD
    rw [if_neg (by omega), if_neg (by omega)]
  simp only [find_illuminant_typed, hd, hk, hnone]
  simp

/-- Witness for C3 (amended) at the concrete token `"D39"` (39 < 40). -/
theorem daylight_out_of_range_exits_witness :
    find_illuminant_typed dummy_s_series [] "D39" = FIResult.processExit :=
  daylight_out_of_range_exits dummy_s_series [] "D39" (by decide) (by decide)
    (by decide)

/-- C5 counterexample: resolving the daylight token `"D6500"` yields an
illuminant whose `type` is `"d6500"`, not `"d65"`: the string-token path uses
the parsed CCT as-is (`"d" + std::to_string( cct )`,
`rawtoaces_core.cpp:319`), without dividing by 100. -/
theorem find_illuminant_D6500_type_cex :
    (find_illuminant_typed dummy_s_series [] "D6500").illuminantType = some "d6500" ∧
    (find_illuminant_typed dummy_s_series [] "D6500").illuminantType ≠ some "d65" :=
  ⟨rfl, by decide⟩

/-- C5 (amended): the string-token daylight path sets `type = "d{cct}"` with
the parsed CCT as-is (so `"d65"` arises from the shorthand token `"D65"`,
while `"D6500"` yields `"d6500"`); the string-token blackbody path sets
`type = "{cct}k"`; and the generated catalog entries carry
`"d{cct/100}"` (daylight) and `"{cct}k"` (blackbody), all lowercase. -/
theorem generated_illuminant_type_strings :
    (∀ (tbl : List (ℤ × ℚ × ℚ × ℚ)) (dbs : List (SpectralData ℝ)) (token : String),
      (token.toList.headD '?').toLower = 'd' →
      (token.toList.getLastD '?').toLower ≠ 'k' →
      (40 ≤ atoi (token.drop 1) ∧ atoi (token.drop 1) ≤ 250 ∨
        4000 ≤ atoi (token.drop 1) ∧ atoi (token.drop 1) ≤ 25000) →
      (find_illuminant_typed tbl dbs token).illuminantType =
        some ("d" ++ toString (atoi (token.drop 1)))) ∧
    (∀ (tbl : List (ℤ × ℚ × ℚ × ℚ)) (dbs : List (SpectralData ℝ)) (token : String),
      (token.toList.headD '?').toLower ≠ 'd' →
      (token.toList.getLastD '?').toLower = 'k' →
      1500 ≤ atoi (token.dropRight 1) → atoi (token.dropRight 1) < 4000 →
      (find_illuminant_typed tbl dbs token).illuminantType =
        some (toString (atoi (token.dropRight 1)) ++ "k")) ∧
    (∀ tbl : List (ℤ × ℚ × ℚ × ℚ),
      (populate_generated_illuminants tbl).map SpectralData.type =
        catalog_daylight_CCTs.map (fun cct => "d" ++ toString (cct / 100)) ++
        catalog_blackbody_CCTs.map (fun cct => toString cct ++ "k")) := by
  refine ⟨?_, ?_, ?_⟩
  · intro tbl dbs token hd hk hband
    rcases hband with hb | hb
    · have hsome : calculate_daylight_SPD tbl (atoi (token.drop 1)) =
          some (daylight_values tbl ((atoi (token.drop 1) : ℚ) * 100 * 1.4387752 / 1.438)) := by
        unfold calculate_daylight_SPD
        rw [if_pos hb]
      simp only [find_illuminant_typed, hd, hk, hsome]
      simp [FIResult.illuminantType, generated_illuminant]
    · have hsome : calculate_daylight_SPD tbl (atoi (token.drop 1)) =
          some (daylight_values tbl (atoi (token.drop 1) : ℚ)) := by
        unfold calculate_daylight_SPD
        rw [if_neg (by omega), if_pos hb]
      simp only [find_illuminant_typed, hd, hk, hsome]
      simp [FIResult.illuminantType, generated_illuminant]
  · intro tbl dbs token hd hk h1 h2
    have hsome : calculate_blackbody_SPD (atoi (token.dropRight 1)) =
        some ((List.range 81).map
          (fun i => blackbody_radiance (atoi (token.dropRight 1)) (380 + 5 * i))) := by
      unfold calculate_blackbody_SPD
      rw [if_neg (by omega)]
    simp only [find_illuminant_typed, hd, hk, hsome]
    simp [FIResult.illuminantType, generated_illuminant]
  · intro tbl
    simp only [populate_generated_illuminants, List.map_append, List.map_map]
    rfl

/-- Witness for C5 (amended): the shorthand token `"D65"` yields type `"d65"`
and the token `"2000K"` yields type `"2000k"`. -/
theorem generated_illuminant_type_strings_witness :
    (find_illuminant_typed dummy_s_series [] "D65").illuminantType = some "d65" ∧
    (find_illuminant_typed dummy_s_series [] "2000K").illuminantType = some "2000k" := by
  constructor
  · have h := generated_illuminant_type_strings.1 dummy_s_series [] "D65"
      (by decide) (by decide) (by decide)
    simpa using h
  · have h := generated_illuminant_type_strings.2.1 dummy_s_series [] "2000K"
      (by decide) (by decide) (by decide) (by decide)
    simpa using h

/-- C4: for every integer CCT in `[1500, 4000)` the blackbody synthesis emits
exactly 81 samples, one per wavelength 380, 385, …, 780 nm, the `i`-th being
`c1·π / (λ⁵(exp(c2) − 1))` with `λ = (380 + 5i)/1e9`, `c1 = 2hc²`,
`c2 = hc/(kλT)` in SI units; any CCT outside `[1500, 4000)` is rejected (no
spectrum is produced — the process exits); and `find_illuminant("3200K")`
produces exactly that spectrum. -/
theorem blackbody_SPD_planck :
    (∀ cct : ℤ, 1500 ≤ cct → cct < 4000 →
      ∃ vals : List ℝ, calculate_blackbody_SPD cct = some vals ∧ vals.length = 81 ∧
        ∀ i : ℕ, i < 81 →
          vals.getD i 0 =
            2 * plancks_constant * light_speed ^ 2 * Real.pi /
              ((((380 + 5 * i : ℕ) : ℝ) / 1e9) ^ 5 *
                (Real.exp (plancks_constant * light_speed /
                  (boltzmann_constant * (((380 + 5 * i : ℕ) : ℝ) / 1e9) * (cct : ℝ))) - 1))) ∧
    (∀ cct : ℤ, cct < 1500 ∨ 4000 ≤ cct → calculate_blackbody_SPD cct = none) ∧
    (∀ (tbl : List (ℤ × ℚ × ℚ × ℚ)) (dbs : List (SpectralData ℝ)),
      (find_illuminant_typed tbl dbs "3200K").powerValues =
        some ((List.range 81).map (fun i => blackbody_radiance 3200 (380 + 5 * i)))) := by
  refine ⟨?_, ?_, ?_⟩
  · intro cct h1 h2
    refine ⟨(List.range 81).map (fun i => blackbody_radiance cct (380 + 5 * i)), ?_, ?_, ?_⟩
    · unfold calculate_blackbody_SPD
      rw [if_neg (by omega)]
    · simp
    · intro i hi
      rw [List.getD_eq_getElem?_getD, List.getElem?_map, List.getElem?_range hi]
      show blackbody_radiance cct (380 + 5 * i) = _
      unfold blackbody_radiance
      norm_num
  · intro cct h
    unfold calculate_blackbody_SPD
    rw [if_pos h]
  · intro tbl dbs
    have h1 : ¬((("3200K".toList.headD '?').toLower = 'd') ∧
        ¬(("3200K".toList.getLastD '?').toLower = 'k')) := by decide
    have h2 : ¬(("3200K".toList.headD '?').toLower = 'd') ∧
        (("3200K".toList.getLastD '?').toLower = 'k') := by decide
    have h3 : atoi ("3200K".dropRight 1) = 3200 := by decide
    have h4 : calculate_blackbody_SPD 3200 =
        some ((List.range 81).map (fun i => blackbody_radiance 3200 (380 + 5 * i))) := by
      unfold calculate_blackbody_SPD
      rw [if_neg (by omega)]
    simp only [find_illuminant_typed, if_neg h1, h2, h3, h4]
    simp [FIResult.powerValues, generated_illuminant, SpectralData.get,
      SpectralData.findSet]

/-- Witness for C4: the synthesis succeeds with 81 samples at 3200 K and is
rejected at 900 K. -/
theorem blackbody_SPD_planck_witness :
    (∃ vals : List ℝ, calculate_blackbody_SPD 3200 = some vals ∧ vals.length = 81) ∧
    calculate_blackbody_SPD 900 = none := by
  constructor
  · obtain ⟨vals, hsome, hlen, _⟩ := blackbody_SPD_planck.1 3200 (by decide) (by decide)
    exact ⟨vals, hsome, hlen⟩
  · exact blackbody_SPD_planck.2.1 900 (by decide)

/-- Helper: updating a channel in a channel list makes the lookup of that
channel return the new spectrum, provided the channel was present. -/
theorem find?_channel_update {α : Type} (l : List (String × Spectrum α)) (c : String)
    (sp old : Spectrum α)
    (h : (l.find? (fun x => x.1 == c)).map (·.2) = some old) :
    ((l.map (fun x => if x.1 == c then (x.1, sp) else x)).find?
      (fun x => x.1 == c)).map (·.2) = some sp := by
  induction l with
  | nil => simp at h
  | cons a as ih =>
    by_cases hc : a.1 == c
    · simp only [List.map_cons, if_pos hc]
      rw [List.find?_cons_of_pos _ (by simpa using hc)]
      rfl
    · simp only [List.map_cons, if_neg hc]
      rw [List.find?_cons_of_neg _ (by simpa using hc)]
      rw [List.find?_cons_of_neg _ (by simpa using hc)] at h
      exact ih h

/-- Helper: `setChannel` transforms `findSet` by mapping the channel update over
the found set. -/
theorem findSet_setChannel {α : Type} (d : SpectralData α) (s c : String)
    (sp : Spectrum α) :
    (d.setChannel s c sp).findSet s =
      (d.findSet s).map (fun l => l.map (fun x => if x.1 == c then (x.1, sp) else x)) := by
  obtain ⟨mfr, mdl, ty, data⟩ := d
  unfold SpectralData.setChannel SpectralData.findSet
  simp only
  induction data with
  | nil => rfl
  | cons a as ih =>
    by_cases hs : a.1 == s
    · simp only [List.map_cons, if_pos hs]
      rw [List.find?_cons_of_pos _ (by simpa using hs),
        List.find?_cons_of_pos _ (by simpa using hs)]
      rfl
    · simp only [List.map_cons, if_neg hs]
      rw [List.find?_cons_of_neg _ (by simpa using hs),
        List.find?_cons_of_neg _ (by simpa using hs)]
      exact ih

/-- Helper: after `setChannel`, reading the channel back yields the new
spectrum (the in-place mutation through `operator[]`). -/
theorem get_setChannel_self {α : Type} (d : SpectralData α) (s c : String)
    (sp old : Spectrum α) (h : d.get s c = some old) :
    (d.setChannel s c sp).get s c = some sp := by
  unfold SpectralData.get at h ⊢
  rw [findSet_setChannel]
  cases hfs : d.findSet s with
  | none => rw [hfs] at h; simp at h
  | some l =>
    rw [hfs] at h
    exact find?_channel_update l c sp old h

/-- Helper: the string-indexed lookup of the dominant channel resolves to the
dominant spectrum. -/
theorem get_dominant_channel (camera : SpectralData ℚ) (sR sG sB : Spectrum ℚ)
    (hR : camera.get "main" "R" = some sR)
    (hG : camera.get "main" "G" = some sG)
    (hB : camera.get "main" "B" = some sB) :
    camera.get "main"
      (if sR.maxValue ≥ sG.maxValue ∧ sR.maxValue ≥ sB.maxValue then "R"
       else if sG.maxValue ≥ sR.maxValue ∧ sG.maxValue ≥ sB.maxValue then "G"
       else "B") = some (dominant_channel sR sG sB) := by
  unfold dominant_channel
  split_ifs with h1 h2
  · exact hR
  · exact hG
  · exact hB

/-- Helper: evaluation of `scale_illuminant` under successful channel lookups:
the illuminant's power curve is replaced by the scaled power curve. -/
theorem scale_illuminant_eq (camera illuminant : SpectralData ℚ)
    (sR sG sB pw : Spectrum ℚ)
    (hR : camera.get "main" "R" = some sR)
    (hG : camera.get "main" "G" = some sG)
    (hB : camera.get "main" "B" = some sB)
    (hP : illuminant.get "main" "power" = some pw) :
    scale_illuminant camera illuminant =
      some (illuminant.setChannel "main" "power" (scaled_power sR sG sB pw)) := by
  unfold scale_illuminant
  rw [hR]
  simp only [Option.bind_eq_bind, Option.some_bind]
  rw [hG]
  simp only [Option.bind_eq_bind, Option.some_bind]
  rw [hB]
  simp only [Option.bind_eq_bind, Option.some_bind]
  rw [get_dominant_channel camera sR sG sB hR hG hB]
  simp only [Option.bind_eq_bind, Option.some_bind]
  rw [hP]
  simp only [Option.bind_eq_bind, Option.some_bind]
  rfl

/-- Helper: evaluation of `_calculate_WB` under successful channel lookups: the
result is the specification's green-normalised triple and the in-place scaled
illuminant. -/
theorem calculate_WB_core_eq (camera illuminant : SpectralData ℚ)
    (sR sG sB pw : Spectrum ℚ)
    (hR : camera.get "main" "R" = some sR)
    (hG : camera.get "main" "G" = some sG)
    (hB : camera.get "main" "B" = some sB)
    (hP : illuminant.get "main" "power" = some pw) :
    calculate_WB_core camera illuminant =
      some (spec_WB_triple sR sG sB pw,
        illuminant.setChannel "main" "power" (scaled_power sR sG sB pw)) := by
  unfold calculate_WB_core
  rw [scale_illuminant_eq camera illuminant sR sG sB pw hR hG hB hP]
  simp only [Option.bind_eq_bind, Option.some_bind]
  rw [hR]
  simp only [Option.bind_eq_bind, Option.some_bind]
  rw [hG]
  simp only [Option.bind_eq_bind, Option.some_bind]
  rw [hB]
  simp only [Option.bind_eq_bind, Option.some_bind]
  rw [get_setChannel_self illuminant "main" "power" (scaled_power sR sG sB pw) pw hP]
  simp only [Option.bind_eq_bind, Option.some_bind]
  rfl

/-- Helper: an element-wise product of positive sample lists is positive. -/
theorem zipWith_mul_mem_pos :
    ∀ xs ys : List ℚ, (∀ x ∈ xs, 0 < x) → (∀ y ∈ ys, 0 < y) →
      ∀ z ∈ List.zipWith (· * ·) xs ys, 0 < z := by
  intro xs
  induction xs with
  | nil => intro ys _ _ z hz; simp at hz
  | cons a as ih =>
    intro ys hx hy z hz
    cases ys with
    | nil => simp at hz
    | cons b bs =>
      simp only [List.zipWith_cons_cons, List.mem_cons] at hz
      rcases hz with hz | hz
      · subst hz
        exact mul_pos (hx a (by simp)) (hy b (by simp))
      · exact ih bs (fun x hx2 => hx x (by simp [hx2]))
          (fun y hy2 => hy y (by simp [hy2])) z hz

/-- Helper: the integral of an element-wise product of positive non-empty
curves is positive. -/
theorem spectrum_mul_integrate_pos (s t : Spectrum ℚ)
    (hs : ∀ x ∈ s.values, 0 < x) (ht : ∀ y ∈ t.values, 0 < y)
    (hns : s.values ≠ []) (hnt : t.values ≠ []) :
    0 < (spectrum_mul s t).integrate := by
  apply List.sum_pos
  · exact zipWith_mul_mem_pos s.values t.values hs ht
  · intro h
    rcases List.zipWith_eq_nil_iff.mp h with h2 | h2
    · exact hns h2
    · exact hnt h2

/-- Helper: a `Spectrum( value )` on the reference shape allocates 81 samples. -/
theorem mkSpectrum_ReferenceShape_values (q : ℚ) :
    (mkSpectrum q ReferenceShape).values = List.replicate 81 q := by
  unfold mkSpectrum ReferenceShape
  rw [if_pos (by norm_num)]
  norm_num

/-- Helper: the sample list of the scaled power curve. -/
theorem scaled_power_values (sR sG sB pw : Spectrum ℚ) :
    (scaled_power sR sG sB pw).values =
      List.zipWith (· * ·) pw.values
        (List.replicate 81
          (1 / (spectrum_mul (dominant_channel sR sG sB) pw).integrate)) := by
  unfold scaled_power spectrum_mul spectrum_op
  rw [mkSpectrum_ReferenceShape_values]

/-- Helper: the dominant channel is one of the three camera channels. -/
theorem dominant_channel_cases (sR sG sB : Spectrum ℚ) :
    dominant_channel sR sG sB = sR ∨ dominant_channel sR sG sB = sG ∨
      dominant_channel sR sG sB = sB := by
  unfold dominant_channel
  split_ifs
  · exact Or.inl rfl
  · exact Or.inr (Or.inl rfl)
  · exact Or.inr (Or.inr rfl)

/-- C1: for a camera whose `"main"` set has exactly 3 channels with positive
`R`, `G`, `B` curves and an illuminant whose `"main"` set has exactly the
positive `power` channel (equal sample counts `0 < L ≤ 81`), `calculate_WB`
succeeds, scales the illuminant in place by
`1 / integrate( dominant × power )`, and stores the multipliers
`(g/r, 1, g/b)` where `r`, `g`, `b` integrate each camera channel against the
scaled power; in particular the middle entry is exactly 1, and the first and
third entries are quotients of positive integrals. -/
theorem calculate_WB_green_normalized
    (camera illuminant : SpectralData ℚ) (wb0 : List ℚ)
    (sR sG sB pw : Spectrum ℚ) (L : ℕ)
    (hm3 : (camera.findSet "main").map List.length = some 3)
    (hm1 : (illuminant.findSet "main").map List.length = some 1)
    (hR : camera.get "main" "R" = some sR)
    (hG : camera.get "main" "G" = some sG)
    (hB : camera.get "main" "B" = some sB)
    (hP : illuminant.get "main" "power" = some pw)
    (hposR : ∀ x ∈ sR.values, 0 < x) (hposG : ∀ x ∈ sG.values, 0 < x)
    (hposB : ∀ x ∈ sB.values, 0 < x) (hposP : ∀ x ∈ pw.values, 0 < x)
    (hLR : sR.values.length = L) (hLG : sG.values.length = L)
    (hLB : sB.values.length = L) (hLP : pw.values.length = L)
    (hL0 : 0 < L) (hL81 : L ≤ 81) :
    calculate_WB camera illuminant wb0 =
      some (true, spec_WB_triple sR sG sB pw,
        illuminant.setChannel "main" "power" (scaled_power sR sG sB pw)) ∧
    (spec_WB_triple sR sG sB pw).get? 1 = some 1 ∧
    0 < (spectrum_mul sR (scaled_power sR sG sB pw)).integrate ∧
    0 < (spectrum_mul sB (scaled_power sR sG sB pw)).integrate := by
  have hdompos : ∀ x ∈ (dominant_channel sR sG sB).values, 0 < x := by
    rcases dominant_channel_cases sR sG sB with h | h | h <;> rw [h] <;> assumption
  have hdomlen : (dominant_channel sR sG sB).values.length = L := by
    rcases dominant_channel_cases sR sG sB with h | h | h <;> rw [h] <;> assumption
  have hdomne : (dominant_channel sR sG sB).values ≠ [] :=
    List.ne_nil_of_length_pos (hdomlen ▸ hL0)
  have hpwne : pw.values ≠ [] := List.ne_nil_of_length_pos (hLP ▸ hL0)
  have hscalepos : 0 < (spectrum_mul (dominant_channel sR sG sB) pw).integrate :=
    spectrum_mul_integrate_pos _ _ hdompos hposP hdomne hpwne
  have hspw_pos : ∀ z ∈ (scaled_power sR sG sB pw).values, 0 < z := by
    rw [scaled_power_values]
    apply zipWith_mul_mem_pos _ _ hposP
    intro y hy
    rw [List.eq_of_mem_replicate hy]
    exact one_div_pos.mpr hscalepos
  have hspw_len : (scaled_power sR sG sB pw).values.length = L := by
    rw [scaled_power_values]
    simp only [List.length_zipWith, List.length_replicate, hLP]
    omega
  have hspw_ne : (scaled_power sR sG sB pw).values ≠ [] :=
    List.ne_nil_of_length_pos (hspw_len ▸ hL0)
  have hrne : sR.values ≠ [] := List.ne_nil_of_length_pos (hLR ▸ hL0)
  have hbne : sB.values ≠ [] := List.ne_nil_of_length_pos (hLB ▸ hL0)
  refine ⟨?_, rfl,
    spectrum_mul_integrate_pos _ _ hposR hspw_pos hrne hspw_ne,
    spectrum_mul_integrate_pos _ _ hposB hspw_pos hbne hspw_ne⟩
  unfold calculate_WB
  rw [if_neg (by rw [hm3]; simp), if_neg (by rw [hm1]; simp),
    calculate_WB_core_eq camera illuminant sR sG sB pw hR hG hB hP]

/-- Witness for C1 at the concrete one-sample camera and illuminant. -/
theorem calculate_WB_green_normalized_witness :
    calculate_WB cameraEx illuminantEx [1, 1, 1] =
      some (true,
        spec_WB_triple cameraChannelREx cameraChannelGEx cameraChannelBEx powerChannelEx,
        illuminantEx.setChannel "main" "power"
          (scaled_power cameraChannelREx cameraChannelGEx cameraChannelBEx powerChannelEx)) ∧
    (spec_WB_triple cameraChannelREx cameraChannelGEx cameraChannelBEx
      powerChannelEx).get? 1 = some 1 := by
  have h := calculate_WB_green_normalized cameraEx illuminantEx [1, 1, 1]
    cameraChannelREx cameraChannelGEx cameraChannelBEx powerChannelEx 1
    rfl rfl rfl rfl rfl rfl
    (by decide) (by decide) (by decide) (by decide)
    rfl rfl rfl rfl (by decide) (by decide)
  exact ⟨h.1, h.2.1⟩

/-- Helper: the candidate loop of `find_illuminant( wb )` never fails when the
camera has `R`, `G`, `B` channels and every candidate has a `power` channel. -/
theorem find_illuminant_wb_loop_some (camera : SpectralData ℚ)
    (sR sG sB : Spectrum ℚ)
    (hR : camera.get "main" "R" = some sR)
    (hG : camera.get "main" "G" = some sG)
    (hB : camera.get "main" "B" = some sB) :
    ∀ (catalog : List (SpectralData ℚ)) (wb : List ℚ)
      (st : ℚ × SpectralData ℚ × List ℚ),
      (∀ cand ∈ catalog, ∃ pwc, cand.get "main" "power" = some pwc) →
      ∃ st2, find_illuminant_wb_loop camera catalog wb st = some st2 := by
  intro catalog
  induction catalog with
  | nil => intro wb st _; exact ⟨st, rfl⟩
  | cons cand rest ih =>
    intro wb st hcat
    obtain ⟨pwc, hpwc⟩ := hcat cand (by simp)
    unfold find_illuminant_wb_loop
    rw [calculate_WB_core_eq camera cand sR sG sB pwc hR hG hB hpwc]
    exact ih wb _ (fun c hc => hcat c (by simp [hc]))

/-- Helper: when no candidate's error beats the initial `max_double_value`, the
candidate loop leaves the state untouched. -/
theorem find_illuminant_wb_loop_no_improvement (camera : SpectralData ℚ)
    (sR sG sB : Spectrum ℚ)
    (hR : camera.get "main" "R" = some sR)
    (hG : camera.get "main" "G" = some sG)
    (hB : camera.get "main" "B" = some sB) :
    ∀ (catalog : List (SpectralData ℚ)) (wb : List ℚ)
      (il0 : SpectralData ℚ) (wb0 : List ℚ),
      (∀ cand ∈ catalog, ∃ pwc, cand.get "main" "power" = some pwc) →
      (∀ cand ∈ catalog, ∀ wbt ilt, calculate_WB_core camera cand = some (wbt, ilt) →
        max_double_value ≤ calculate_SSE wbt wb) →
      find_illuminant_wb_loop camera catalog wb (max_double_value, il0, wb0) =
        some (max_double_value, il0, wb0) := by
  intro catalog
  induction catalog with
  | nil => intro wb il0 wb0 _ _; rfl
  | cons cand rest ih =>
    intro wb il0 wb0 hcat hsse
    obtain ⟨pwc, hpwc⟩ := hcat cand (by simp)
    have hcore := calculate_WB_core_eq camera cand sR sG sB pwc hR hG hB hpwc
    unfold find_illuminant_wb_loop
    rw [hcore]
    have hle := hsse cand (by simp) _ _ hcore
    dsimp only
    rw [if_neg (not_lt.mpr hle)]
    exact ih wb il0 wb0 (fun c hc => hcat c (by simp [hc]))
      (fun c hc => hsse c (by simp [hc]))

/-- C10: with a camera whose `"main"` set has exactly 3 channels (including
`R`, `G`, `B`) and candidates that all carry a `power` channel,
`find_illuminant( wb )` returns `true` for every input triple — including when
the catalog contributes no loadable database illuminants; and when no candidate
improves on the initial `max_double_value` error, the solver's illuminant and
white-balance multipliers are left unchanged while the call still reports
success. -/
theorem find_illuminant_wb_always_succeeds
    (camera : SpectralData ℚ) (sR sG sB : Spectrum ℚ)
    (catalog : List (SpectralData ℚ)) (wb wb0 : List ℚ) (il0 : SpectralData ℚ)
    (hm3 : (camera.findSet "main").map List.length = some 3)
    (hR : camera.get "main" "R" = some sR)
    (hG : camera.get "main" "G" = some sG)
    (hB : camera.get "main" "B" = some sB)
    (hcat : ∀ cand ∈ catalog, ∃ pwc, cand.get "main" "power" = some pwc) :
    (∃ il wbm, find_illuminant_wb camera catalog wb il0 wb0 = some (true, il, wbm)) ∧
    ((∀ cand ∈ catalog, ∀ wbt ilt, calculate_WB_core camera cand = some (wbt, ilt) →
        max_double_value ≤ calculate_SSE wbt wb) →
      find_illuminant_wb camera catalog wb il0 wb0 = some (true, il0, wb0)) := by
  have hguard : ¬((camera.findSet "main").map List.length ≠ some 3) := by
    rw [hm3]; simp
  constructor
  · obtain ⟨st2, hst2⟩ := find_illuminant_wb_loop_some camera sR sG sB hR hG hB
      catalog wb (max_double_value, il0, wb0) hcat
    refine ⟨st2.2.1, st2.2.2, ?_⟩
    unfold find_illuminant_wb
    rw [if_neg hguard, hst2]
  · intro hsse
    unfold find_illuminant_wb
    rw [if_neg hguard,
      find_illuminant_wb_loop_no_improvement camera sR sG sB hR hG hB
        catalog wb il0 wb0 hcat hsse]

/-- Witness for C10: with the empty catalog the call succeeds and leaves the
illuminant and multipliers untouched. -/
theorem find_illuminant_wb_always_succeeds_witness :
    (∃ il wbm, find_illuminant_wb cameraEx [] [1, 1, 1] illuminantEx [1, 1, 1] =
      some (true, il, wbm)) ∧
    find_illuminant_wb cameraEx [] [1, 1, 1] illuminantEx [1, 1, 1] =
      some (true, illuminantEx, [1, 1, 1]) := by
  have h := find_illuminant_wb_always_succeeds cameraEx
    cameraChannelREx cameraChannelGEx cameraChannelBEx
    [] [1, 1, 1] [1, 1, 1] illuminantEx
    rfl rfl rfl rfl (by simp)
  exact ⟨h.1, h.2 (by simp)⟩

/-- Helper: the result of `reshape` is always on the reference shape. -/
theorem reshape_shape (s : Spectrum ℚ) : s.reshape.shape = ReferenceShape := by
  unfold Spectrum.reshape
  by_cases h : s.shape = ReferenceShape
  · simp [h]
  · simp [h]

/-- Helper: `reshape` is the identity on a spectrum already at the reference
shape (`spectral_data.cpp:86-87`). -/
theorem reshape_of_reference (t : Spectrum ℚ) (h : t.shape = ReferenceShape) :
    t.reshape = t := by
  unfold Spectrum.reshape
  simp [h]

/-- C7: `reshape` is idempotent, and on a spectrum already at `ReferenceShape`
it changes neither the shape nor the values. -/
theorem reshape_idempotent (s : Spectrum ℚ) (hwf : 0 < s.shape.step) :
    s.reshape.reshape = s.reshape ∧ (s.shape = ReferenceShape → s.reshape = s) :=
  ⟨reshape_of_reference s.reshape (reshape_shape s), fun h => reshape_of_reference s h⟩

/-- Witness for C7 at a concrete spectrum on the reference shape. -/
theorem reshape_idempotent_witness :
    0 < (⟨ReferenceShape, List.replicate 81 (1 : ℚ)⟩ : Spectrum ℚ).shape.step ∧
    (⟨ReferenceShape, List.replicate 81 (1 : ℚ)⟩ : Spectrum ℚ).reshape.reshape =
      (⟨ReferenceShape, List.replicate 81 (1 : ℚ)⟩ : Spectrum ℚ).reshape ∧
    (⟨ReferenceShape, List.replicate 81 (1 : ℚ)⟩ : Spectrum ℚ).reshape =
      ⟨ReferenceShape, List.replicate 81 (1 : ℚ)⟩ := by
  refine ⟨by decide, ?_⟩
  have h := reshape_idempotent ⟨ReferenceShape, List.replicate 81 (1 : ℚ)⟩ (by decide)
  exact ⟨h.1, h.2 rfl⟩

end RawToAces
